import Mathlib

/-!
Verification development for the Anti-Keylogger repository.

Shallow embedding of the detection pipeline:
  * `Heuristics` — the rule-based risk engine (`src/heuristics.py`),
  * `Detector`   — the production decision core (`keylogger_detector.py`),
  * `Enumerator` — hook discovery (`src/enumerator.py`),
  * `Monitor`    — the change-detecting scan cycle (`src/monitor.py`).

Python strings are embedded as Lean `String`; the Python substring test
`pat in s` is `strContains s pat`; `s.lower()` is `strLower s` (ASCII
lowering, which agrees with Python on all path/name data used here).
Results of OS probes (psutil, win32 version info) are modelled as explicit
environment records supplied to the functions that consume them.
-/

/-- ASCII lowercasing of a string, modelling Python `str.lower()` on the
ASCII process names and paths handled by this program. -/
def strLower (s : String) : String := String.mk (s.data.map Char.toLower)

/-- Contiguous-sublist test used to embed Python substring containment. -/
def subListOf (pat : List Char) : List Char → Bool
  | [] => pat.isEmpty
  | c :: rest => List.isPrefixOf pat (c :: rest) || subListOf pat rest

/-- Substring test, modelling the Python expression `pat in hay`. -/
def strContains (hay pat : String) : Bool := subListOf pat.data hay.data

/-! ## Data model (`src/enumerator.py`) -/

/-- Process metadata structure (`ProcessInfo` in `src/enumerator.py`).
The `timestamp` wall-clock field is carried as an uninterpreted string. -/
structure ProcessInfo where
  pid : Nat
  name : String
  path : String
  parent_pid : Nat
  is_signed : Bool
  user_account : String
  is_hidden_window : Bool
  is_service : Bool
  loaded_dlls : List String
  privileges : List String
  timestamp : String
deriving DecidableEq, Repr

/-- Hook detection metadata structure (`HookInfo` in `src/enumerator.py`). -/
structure HookInfo where
  hook_id : Nat
  hook_type : String
  owner_pid : Nat
  owner_process : String
  module_path : String
  timestamp : String
deriving DecidableEq, Repr

namespace Heuristics

/-- Risk classification levels (`RiskLevel` in `src/heuristics.py`). -/
inductive RiskLevel where
  | LOW
  | MEDIUM
  | HIGH
  | UNKNOWN
deriving DecidableEq, Repr

/-- A triggered risk detection rule, as stored in
`RiskAssessment.triggered_rules` (`RiskRule` in `src/heuristics.py`;
the `triggered` flag is implicit: only triggered rules are collected). -/
structure RiskRule where
  rule_id : String
  name : String
  description : String
  weight : Nat
  evidence : String
deriving DecidableEq, Repr

/-- Complete risk assessment result (`RiskAssessment` in `src/heuristics.py`).
The wall-clock `timestamp` field is omitted. -/
structure RiskAssessment where
  pid : Nat
  process_name : String
  risk_score : Nat
  risk_level : RiskLevel
  triggered_rules : List RiskRule
  explanation : String
deriving DecidableEq, Repr

/-- Detection sensitivity parameter of `HeuristicEngine.__init__`. -/
inductive Sensitivity where
  | low
  | medium
  | high
deriving DecidableEq, Repr

/-- Weight scaling performed once at engine construction:
`int(rule.weight * 1.3)` for high and `int(rule.weight * 0.7)` for low.
For every base weight in the rule catalog (10, 15, 20, 25, 30, 35) the
IEEE-double product is exact enough that `int` truncation coincides with
the rational floor `w * 13 / 10` resp. `w * 7 / 10`, which is what we use. -/
def scaleWeight : Sensitivity → Nat → Nat
  | Sensitivity.high, w => w * 13 / 10
  | Sensitivity.low, w => w * 7 / 10
  | Sensitivity.medium, w => w

/-- Suspicious directory fragments of `_check_unusual_path`. -/
def suspicious_paths : List String :=
  [":\\users\\", ":\\temp\\", ":\\downloads\\", ":\\appdata\\roaming\\"]

/-- Trigger of rule R003 (`_check_unusual_path`): fires when the path lies
under a suspicious tree and is not under a windows/program-files tree. -/
def trig_unusual_path (p : ProcessInfo) : Bool :=
  let path_lower := strLower p.path
  if strContains path_lower "\\windows\\" || strContains path_lower "\\program files" then
    false
  else
    suspicious_paths.any fun sus => strContains path_lower sus

/-- Names allowed to run elevated (`_check_elevated_privileges`). -/
def system_elevated : List String :=
  ["taskmgr.exe", "regedit.exe", "cmd.exe", "powershell.exe"]

/-- Suspicious DLL name fragments of `_check_suspicious_dlls`. -/
def suspicious_dll_patterns : List String :=
  ["hook", "inject", "keylog", "capture", "spy", "monitor", "intercept", "suspicious"]

/-- Whether a loaded DLL name matches one of the suspicious patterns. -/
def dll_matches (dll : String) : Bool :=
  suspicious_dll_patterns.any fun pattern => strContains (strLower dll) pattern

/-- Temp directory fragments of `_check_temp_location`. -/
def temp_paths : List String := ["\\temp\\", "\\tmp\\", "\\appdata\\local\\temp"]

/-- System processes and the path fragment they must run from
(`_check_name_spoofing`). -/
def system_procs : List (String × String) :=
  [("system", "\\windows\\system32\\ntoskrnl.exe"),
   ("svchost.exe", "\\windows\\system32\\svchost.exe"),
   ("explorer.exe", "\\windows\\explorer.exe"),
   ("lsass.exe", "\\windows\\system32\\lsass.exe"),
   ("csrss.exe", "\\windows\\system32\\csrss.exe"),
   ("winlogon.exe", "\\windows\\system32\\winlogon.exe")]

/-- Trigger of rule R008 (`_check_name_spoofing`). -/
def trig_name_spoofing (p : ProcessInfo) : Bool :=
  match system_procs.find? (fun kv => kv.1 == strLower p.name) with
  | some kv => !(strContains (strLower p.path) kv.2)
  | none => false

/-- One rule of the engine: catalog data from `_initialize_rules` together
with its trigger condition and evidence builder from the `_check_*` method
that fires it.  The two extra arguments of `trig`/`evid` are the process
record and the `hook_count` argument of `analyze_process`. -/
structure Check where
  rule_id : String
  name : String
  description : String
  base_weight : Nat
  trig : ProcessInfo → Nat → Bool
  evid : ProcessInfo → Nat → String

/-- The rule catalog in the order `analyze_process` evaluates it
(`_check_unsigned_binary` … `_check_multiple_hooks`). -/
def checks : List Check :=
  [{ rule_id := "R001", name := "Unsigned Binary",
     description := "Executable lacks valid digital signature",
     base_weight := 25,
     trig := fun p _ => !p.is_signed,
     evid := fun p _ => "No valid signature found for " ++ p.path },
   { rule_id := "R002", name := "Hidden Window",
     description := "Process has no visible windows (may be hiding)",
     base_weight := 20,
     trig := fun p _ => p.is_hidden_window && !p.is_service,
     evid := fun _ _ => "Process runs without visible windows" },
   { rule_id := "R003", name := "Unusual Path",
     description := "Executable located in suspicious directory",
     base_weight := 30,
     trig := fun p _ => trig_unusual_path p,
     evid := fun p _ => "Executing from " ++ p.path },
   { rule_id := "R004", name := "Unexpected Elevation",
     description := "Process has elevated privileges without clear reason",
     base_weight := 15,
     trig := fun p _ =>
       p.privileges.contains "ELEVATED" && !p.is_service &&
         !(system_elevated.contains (strLower p.name)),
     evid := fun p _ =>
       "Process has elevated privileges: " ++ String.intercalate ", " p.privileges },
   { rule_id := "R005", name := "Suspicious DLL",
     description := "Process loaded unusual or injected DLLs",
     base_weight := 25,
     trig := fun p _ => p.loaded_dlls.any dll_matches,
     evid := fun p _ =>
       "Loaded suspicious DLL: " ++ ((p.loaded_dlls.find? dll_matches).getD "") },
   { rule_id := "R006", name := "Orphan Process",
     description := "Parent process no longer exists",
     base_weight := 10,
     trig := fun p _ => decide (0 < p.parent_pid) && decide (p.parent_pid < 4) &&
       decide (100 < p.pid),
     evid := fun p _ => "Parent PID " ++ toString p.parent_pid ++ " likely terminated" },
   { rule_id := "R007", name := "Temp Directory Execution",
     description := "Executable running from temporary directory",
     base_weight := 20,
     trig := fun p _ => temp_paths.any fun t => strContains (strLower p.path) t,
     evid := fun p _ => "Running from temp: " ++ p.path },
   { rule_id := "R008", name := "Name Spoofing",
     description := "Process name mimics system process but path differs",
     base_weight := 35,
     trig := fun p _ => trig_name_spoofing p,
     evid := fun p _ => p.name ++ " running from unexpected path: " ++ p.path },
   { rule_id := "R009", name := "Unknown Service",
     description := "Marked as service but not recognized",
     base_weight := 15,
     trig := fun p _ => p.is_service && !p.is_signed,
     evid := fun p _ => "Unsigned service: " ++ p.name },
   { rule_id := "R010", name := "Multiple Hooks",
     description := "Process has registered multiple keyboard hooks",
     base_weight := 20,
     trig := fun _ hc => decide (2 < hc),
     evid := fun _ hc => "Process registered " ++ toString hc ++ " hooks" }]

/-- The ordered list of rules triggered by one `analyze_process` run,
with weights scaled by the engine sensitivity. -/
def triggered_rules (sens : Sensitivity) (p : ProcessInfo) (hook_count : Nat) :
    List RiskRule :=
  (checks.filter fun c => c.trig p hook_count).map fun c =>
    { rule_id := c.rule_id, name := c.name, description := c.description,
      weight := scaleWeight sens c.base_weight, evidence := c.evid p hook_count }

/-- Score-to-level thresholds inlined in `analyze_process`. -/
def risk_level_of (score : Nat) : RiskLevel :=
  if 61 ≤ score then RiskLevel.HIGH
  else if 31 ≤ score then RiskLevel.MEDIUM
  else RiskLevel.LOW

/-- Explanation string of `_generate_explanation`. -/
def generate_explanation (triggered : List RiskRule) (score : Nat) : String :=
  if triggered.isEmpty then
    "No suspicious indicators detected. Score: " ++ toString score ++ "/100 (LOW risk)"
  else
    "Score: " ++ toString score ++ "/100. Triggered: " ++
      String.intercalate ", "
        (triggered.map fun rule => rule.name ++ " (+" ++ toString rule.weight ++ ")")

/-- `HeuristicEngine.analyze_process`: evaluate every rule, sum the
weights of the triggered ones and classify the total. -/
def analyze_process (sens : Sensitivity) (p : ProcessInfo) (hook_count : Nat) :
    RiskAssessment :=
  let triggered := triggered_rules sens p hook_count
  let score := (triggered.map RiskRule.weight).sum
  { pid := p.pid, process_name := p.name, risk_score := score,
    risk_level := risk_level_of score, triggered_rules := triggered,
    explanation := generate_explanation triggered score }

/-- Standalone score classifier `classify_risk` (`src/heuristics.py`);
its argument is a Python int, embedded as `Int` since negative scores
reach the `UNKNOWN` branch. -/
def classify_risk (score : Int) : RiskLevel :=
  if 61 ≤ score then RiskLevel.HIGH
  else if 31 ≤ score then RiskLevel.MEDIUM
  else if 0 ≤ score then RiskLevel.LOW
  else RiskLevel.UNKNOWN

end Heuristics

namespace Heuristics

/-- Threshold characterization of the inline score-to-level mapping. -/
theorem risk_level_of_iff (n : Nat) :
    (risk_level_of n = RiskLevel.HIGH ↔ 61 ≤ n) ∧
    (risk_level_of n = RiskLevel.MEDIUM ↔ 31 ≤ n ∧ n ≤ 60) ∧
    (risk_level_of n = RiskLevel.LOW ↔ n ≤ 30) := by
  unfold risk_level_of
  split_ifs with h1 h2 <;>
    refine ⟨?_, ?_, ?_⟩ <;>
      first
        | exact iff_of_true rfl (by omega)
        | exact iff_of_false (by decide) (by omega)

/-- C4: every `RiskAssessment` produced by `HeuristicEngine.analyze_process`
has `risk_level` HIGH exactly when the score is at least 61, MEDIUM exactly
when it is between 31 and 60, and LOW exactly when it is at most 30; the
standalone `classify_risk` agrees on every non-negative score. -/
theorem risk_thresholds (sens : Sensitivity) (p : ProcessInfo) (hc : Nat) :
    ((analyze_process sens p hc).risk_level = RiskLevel.HIGH ↔
        61 ≤ (analyze_process sens p hc).risk_score) ∧
    ((analyze_process sens p hc).risk_level = RiskLevel.MEDIUM ↔
        31 ≤ (analyze_process sens p hc).risk_score ∧
          (analyze_process sens p hc).risk_score ≤ 60) ∧
    ((analyze_process sens p hc).risk_level = RiskLevel.LOW ↔
        (analyze_process sens p hc).risk_score ≤ 30) ∧
    (∀ s : Int, 0 ≤ s →
      ((classify_risk s = RiskLevel.HIGH ↔ 61 ≤ s) ∧
       (classify_risk s = RiskLevel.MEDIUM ↔ 31 ≤ s ∧ s ≤ 60) ∧
       (classify_risk s = RiskLevel.LOW ↔ 0 ≤ s ∧ s ≤ 30))) := by
  obtain ⟨hh, hm, hl⟩ := risk_level_of_iff (analyze_process sens p hc).risk_score
  refine ⟨hh, hm, hl, ?_⟩
  intro s hs
  unfold classify_risk
  split_ifs with h1 h2 <;>
    refine ⟨?_, ?_, ?_⟩ <;>
      first
        | exact iff_of_true rfl (by omega)
        | exact iff_of_false (by decide) (by omega)

/-- C4 witness: the threshold theorem applied at a concrete process and a
concrete non-negative score. -/
theorem risk_thresholds_witness :
    classify_risk 45 = RiskLevel.MEDIUM := by
  have h := (risk_thresholds Sensitivity.medium
      { pid := 1, name := "a.exe", path := "", parent_pid := 0, is_signed := true,
        user_account := "", is_hidden_window := false, is_service := false,
        loaded_dlls := [], privileges := [], timestamp := "" } 1).2.2.2 45 (by decide)
  exact h.2.1.mpr (by decide)

/-- C5: with the trigger conditions independent of sensitivity, the same
rules fire at every sensitivity, and the total risk score at high
sensitivity dominates medium, which dominates low. -/
theorem sensitivity_monotonicity (p : ProcessInfo) (hc : Nat) :
    ((analyze_process Sensitivity.low p hc).risk_score ≤
        (analyze_process Sensitivity.medium p hc).risk_score ∧
     (analyze_process Sensitivity.medium p hc).risk_score ≤
        (analyze_process Sensitivity.high p hc).risk_score) ∧
    ((triggered_rules Sensitivity.low p hc).map RiskRule.rule_id =
        (triggered_rules Sensitivity.medium p hc).map RiskRule.rule_id ∧
     (triggered_rules Sensitivity.medium p hc).map RiskRule.rule_id =
        (triggered_rules Sensitivity.high p hc).map RiskRule.rule_id) := by
  have hscore : ∀ sens, (analyze_process sens p hc).risk_score =
      ((checks.filter fun c => c.trig p hc).map
        fun c => scaleWeight sens c.base_weight).sum := by
    intro sens
    simp only [analyze_process, triggered_rules]
    rw [List.map_map]
    rfl
  have hlm : ∀ c ∈ checks,
      scaleWeight Sensitivity.low c.base_weight ≤
        scaleWeight Sensitivity.medium c.base_weight := by decide
  have hmh : ∀ c ∈ checks,
      scaleWeight Sensitivity.medium c.base_weight ≤
        scaleWeight Sensitivity.high c.base_weight := by decide
  refine ⟨⟨?_, ?_⟩, ?_, ?_⟩
  · rw [hscore, hscore]
    exact List.sum_le_sum fun c hmem => hlm c (List.mem_of_mem_filter hmem)
  · rw [hscore, hscore]
    exact List.sum_le_sum fun c hmem => hmh c (List.mem_of_mem_filter hmem)
  · simp only [triggered_rules]
    rw [List.map_map, List.map_map]
    rfl
  · simp only [triggered_rules]
    rw [List.map_map, List.map_map]
    rfl

/-- Scenario input of the spec's name-spoofing end-to-end test: svchost.exe
running from C:\Temp, unsigned, hidden window, elevated, with a suspicious
DLL loaded.  The claim gives no parent pid; the spec default for an unknown
parent is 0. -/
def spoofedSvchost : ProcessInfo :=
  { pid := 4120, name := "svchost.exe", path := "C:\\Temp\\svchost.exe",
    parent_pid := 0, is_signed := false, user_account := "DESKTOP\\User",
    is_hidden_window := true, is_service := false,
    loaded_dlls := ["user32.dll", "suspicious.dll"],
    privileges := ["ELEVATED"], timestamp := "" }

/-- C3 counterexample: on the scenario input the medium-sensitivity engine
does not trigger exactly the six claimed rules, and the score is not 155 —
rule R004 (Unexpected Elevation) also fires, because the process holds
ELEVATED privilege, is not a service, and svchost.exe is not in the
elevated-by-design list. -/
theorem spoofed_svchost_not_155 :
    ((analyze_process Sensitivity.medium spoofedSvchost 1).triggered_rules.map
        RiskRule.rule_id ≠ ["R001", "R002", "R003", "R005", "R007", "R008"]) ∧
    (analyze_process Sensitivity.medium spoofedSvchost 1).risk_score ≠ 155 := by
  decide

/-- C3 amended: on the scenario input the medium-sensitivity engine triggers
exactly R001, R002, R003, R004, R005, R007, R008, yielding risk score
25+20+30+15+25+20+35 = 170 and risk level HIGH. -/
theorem spoofed_svchost_assessment :
    (analyze_process Sensitivity.medium spoofedSvchost 1).triggered_rules.map
        RiskRule.rule_id =
      ["R001", "R002", "R003", "R004", "R005", "R007", "R008"] ∧
    (analyze_process Sensitivity.medium spoofedSvchost 1).risk_score = 170 ∧
    (analyze_process Sensitivity.medium spoofedSvchost 1).risk_level =
      RiskLevel.HIGH := by
  decide

/-- C10: process analysis always yields a non-negative score and a level in
LOW/MEDIUM/HIGH — never UNKNOWN; the UNKNOWN level is produced by the
standalone `classify_risk` exactly on negative scores. -/
theorem assessment_level_total (sens : Sensitivity) (p : ProcessInfo) (hc : Nat) :
    0 ≤ (analyze_process sens p hc).risk_score ∧
    (analyze_process sens p hc).risk_level ≠ RiskLevel.UNKNOWN ∧
    ((analyze_process sens p hc).risk_level = RiskLevel.LOW ∨
     (analyze_process sens p hc).risk_level = RiskLevel.MEDIUM ∨
     (analyze_process sens p hc).risk_level = RiskLevel.HIGH) ∧
    (∀ s : Int, classify_risk s = RiskLevel.UNKNOWN ↔ s < 0) := by
  have hof : ∀ n : Nat, risk_level_of n ≠ RiskLevel.UNKNOWN ∧
      (risk_level_of n = RiskLevel.LOW ∨ risk_level_of n = RiskLevel.MEDIUM ∨
        risk_level_of n = RiskLevel.HIGH) := by
    intro n
    unfold risk_level_of
    split_ifs <;> exact ⟨by decide, by simp⟩
  refine ⟨Nat.zero_le _, (hof _).1, (hof _).2, ?_⟩
  intro s
  unfold classify_risk
  split_ifs <;>
    first
      | exact iff_of_true rfl (by omega)
      | exact iff_of_false (by decide) (by omega)

end Heuristics

namespace Detector

/-- High-confidence keylogger detection result (`KeyloggerDetection` in
`keylogger_detector.py`).  `confidence` is embedded as a rational; the
only property claimed of it (clamping at 1.0) is representation
independent. -/
structure KeyloggerDetection where
  pid : Nat
  name : String
  path : String
  confidence : ℚ
  evidence : List String
  threat_score : Nat
  network_activity : Bool
  file_logging : Bool
  memory_suspicious : Bool
  process_injection : Bool
deriving DecidableEq

/-- The process dictionary handed to
`ProductionKeyloggerDetector.analyze_process` by `scan_system`. -/
structure ProcRecord where
  pid : Nat
  name : String
  path : String
  is_signed : Bool
  is_hidden : Bool
  has_hook : Bool
deriving DecidableEq, Repr

/-- Environment record carrying the results of the OS-dependent helpers:
the publisher string extracted by `_get_publisher` (None when the file has
no usable version metadata) and the `(fired, message)` pairs returned by
the five psutil-based behavioral checks `_check_network_exfiltration`,
`_check_file_logging`, `_check_memory_patterns`, `_check_process_ancestry`
and `_check_dll_injection_indicators`. -/
structure OsEnv where
  publisher : Option String
  network_fired : Bool
  network_msg : String
  filelog_fired : Bool
  filelog_msg : String
  memory_fired : Bool
  memory_msg : String
  ancestry_fired : Bool
  ancestry_msg : String
  injection_fired : Bool
  injection_msg : String
deriving DecidableEq, Repr

/-- Python truthiness of an optional string (`if publisher:`). -/
def truthy : Option String → Bool
  | none => false
  | some s => !s.isEmpty

/-- The `trusted_publishers` whitelist of `_get_trusted_publishers`
(a Python set; embedded in source order, membership only is used). -/
def trusted_publishers : List String :=
  ["microsoft corporation", "microsoft windows", "microsoft",
   "apple inc.", "apple inc", "apple computer, inc.", "apple",
   "google llc", "google inc.", "google",
   "hp inc.", "hewlett-packard", "hp development company", "hp",
   "dell inc.", "dell computer corporation", "dell",
   "lenovo", "lenovo group limited",
   "asus", "asustek computer inc.",
   "logitech inc.", "logitech",
   "razer inc.", "razer",
   "corsair memory, inc.", "corsair",
   "steelseries", "steelseries aps",
   "nvidia corporation", "nvidia",
   "advanced micro devices, inc.", "amd", "ati technologies inc.",
   "intel corporation", "intel",
   "realtek semiconductor corp.", "realtek",
   "mozilla corporation", "mozilla foundation", "mozilla",
   "oracle corporation", "oracle america, inc.", "oracle",
   "adobe inc.", "adobe systems incorporated", "adobe",
   "vmware, inc.", "vmware",
   "citrix systems, inc.", "citrix",
   "symantec corporation", "norton",
   "mcafee, llc", "mcafee inc.", "mcafee",
   "trend micro inc.", "trend micro",
   "kaspersky lab", "kaspersky",
   "avast software", "avg technologies",
   "malwarebytes inc.", "malwarebytes",
   "zoom video communications, inc.", "zoom",
   "cisco systems, inc.", "cisco",
   "slack technologies, inc.", "slack",
   "discord inc.", "discord",
   "telegram messenger llp", "telegram",
   "whatsapp inc.", "whatsapp",
   "spotify ab", "spotify ltd", "spotify",
   "valve corporation", "valve",
   "epic games, inc.", "epic games",
   "dropbox, inc.", "dropbox",
   "box, inc.", "box",
   "jetbrains s.r.o.", "jetbrains",
   "github, inc.", "github",
   "atlassian pty ltd", "atlassian"]

/-- The always-safe process names of `_get_safe_process_names`. -/
def safe_process_names : List String :=
  ["system", "smss.exe", "csrss.exe", "wininit.exe", "services.exe",
   "lsass.exe", "svchost.exe", "explorer.exe", "taskhostw.exe",
   "dwm.exe", "winlogon.exe", "fontdrvhost.exe", "sihost.exe",
   "ctfmon.exe", "taskmgr.exe", "registry", "spoolsv.exe",
   "shellhost.exe", "lockapp.exe", "runtimebroker.exe",
   "applicationframehost.exe", "startmenuexperiencehost.exe",
   "searchhost.exe", "widgets.exe", "textinputhost.exe",
   "securityhealthsystray.exe", "securityhealthservice.exe",
   "winword.exe", "excel.exe", "powerpnt.exe", "outlook.exe",
   "onenote.exe", "teams.exe", "onedrive.exe",
   "chrome.exe", "firefox.exe", "msedge.exe", "iexplore.exe",
   "opera.exe", "brave.exe",
   "code.exe", "devenv.exe", "sublime_text.exe", "notepad.exe",
   "notepad++.exe", "pycharm64.exe", "idea64.exe",
   "discord.exe", "slack.exe", "zoom.exe", "spotify.exe",
   "vlc.exe", "steam.exe"]

/-- The expanded trusted path fragments of `_is_trusted_location`.
Note the last two entries of the source's `_get_safe_paths` variant,
`r'c:\program files\\'`, contain a doubled backslash: the raw-string
literal really ends in two backslashes. -/
def trusted_paths : List String :=
  ["c:\\windows\\system32",
   "c:\\windows\\syswow64",
   "c:\\windows\\explorer.exe",
   "c:\\program files\\windowsapps",
   "c:\\windows\\systemapps",
   "c:\\windows\\winsxs",
   "c:\\program files\\hp",
   "c:\\program files\\nvidia corporation",
   "c:\\program files\\logioptionsplus",
   "c:\\program files\\logioptions",
   "c:\\program files\\dell",
   "c:\\program files\\intel",
   "c:\\program files\\amd",
   "c:\\program files\\realtek"]

/-- Suspicious Program Files subfolders checked by `_is_trusted_location`. -/
def suspicious_subfolders : List String := ["\\temp\\", "\\cache\\", "\\downloads\\"]

/-- `_is_trusted_location`: the general Program Files test first (whose
raw-string pattern ends in a doubled backslash, exactly as in the source),
then the vendor-specific fragment list. -/
def is_trusted_location (file_path : String) : Bool :=
  let path_lower := strLower file_path
  if strContains path_lower "c:\\program files\\\\" ||
      strContains path_lower "c:\\program files (x86)\\\\" then
    if suspicious_subfolders.any (fun sus => strContains path_lower sus) then false
    else true
  else
    trusted_paths.any fun safe => strContains path_lower safe

/-- `_is_suspicious_location`: temp trees, downloads, desktop, random
user directories. -/
def is_suspicious_location (file_path : String) : Bool :=
  let path_lower := strLower file_path
  ["\\temp\\", "\\tmp\\",
   "appdata\\local\\temp",
   "appdata\\roaming\\temp",
   "\\downloads\\",
   "\\desktop\\",
   "\\documents\\random"].any fun sus => strContains path_lower sus

/-- Critical system process names and their required locations
(`_detect_name_spoofing`). -/
def critical_processes : List (String × String) :=
  [("svchost.exe", "c:\\windows\\system32"),
   ("csrss.exe", "c:\\windows\\system32"),
   ("lsass.exe", "c:\\windows\\system32"),
   ("winlogon.exe", "c:\\windows\\system32"),
   ("explorer.exe", "c:\\windows"),
   ("dwm.exe", "c:\\windows\\system32")]

/-- `_detect_name_spoofing`: a critical system name whose path does not
contain its required location fragment is spoofed. -/
def detect_name_spoofing (name path : String) : Bool × String :=
  let name_lower := strLower name
  let path_lower := strLower path
  match critical_processes.find? (fun kv => kv.1 == name_lower) with
  | some kv =>
    if !(strContains path_lower kv.2) then
      (true, "\x27" ++ name ++ "\x27 found in WRONG location (not " ++ kv.2 ++ ")")
    else (false, "")
  | none => (false, "")

/-- Keyword list of `_has_keylogger_keywords`. -/
def keylogger_keywords : List String :=
  ["keylog", "keystroke", "keycapture", "keyrecord",
   "pynput", "pyhook", "keyboard_hook", "kb_hook",
   "hook_keys", "capture_keys", "record_keys"]

/-- `_has_keylogger_keywords`: the keywords occurring in `name + ' ' + path`
lowercased. -/
def has_keylogger_keywords (name path : String) : List String :=
  let full_text := strLower (name ++ " " ++ path)
  keylogger_keywords.filter fun kw => strContains full_text kw

/-- Trusted-publisher whitelist test of `analyze_process`
(`if publisher: ... any(trusted in pub_lower ...)`). -/
def publisher_trusted (pub : Option String) : Bool :=
  match pub with
  | none => false
  | some p => !p.isEmpty && trusted_publishers.any fun t => strContains (strLower p) t

/-- `_advanced_behavioral_analysis`: accumulate the confidence boost and
evidence lines of the five behavioral checks, in source order. -/
def advanced_behavioral_analysis (env : OsEnv) : ℚ × List String :=
  let a1 : ℚ × List String :=
    if env.network_fired then
      (0.35, ["🌐 NETWORK EXFILTRATION: " ++ env.network_msg]) else (0, [])
  let a2 : ℚ × List String :=
    if env.filelog_fired then
      (a1.1 + 0.3, a1.2 ++ ["📝 FILE LOGGING: " ++ env.filelog_msg]) else a1
  let a3 : ℚ × List String :=
    if env.memory_fired then
      (a2.1 + 0.2, a2.2 ++ ["🧠 MEMORY PATTERN: " ++ env.memory_msg]) else a2
  let a4 : ℚ × List String :=
    if env.ancestry_fired then
      (a3.1 + 0.25, a3.2 ++ ["👨‍👦 PROCESS ANCESTRY: " ++ env.ancestry_msg]) else a3
  if env.injection_fired then
    (a4.1 + 0.3, a4.2 ++ ["💉 DLL INJECTION: " ++ env.injection_msg]) else a4

/-- The accumulated stage-2 state of `analyze_process`: evidence list,
threat score and (unclamped) confidence. -/
structure Stage2 where
  evidence : List String
  threat_score : Nat
  confidence : ℚ
deriving DecidableEq

/-- The indicator-accumulation block of `analyze_process` (indicators 1-6
followed by the advanced behavioral indicators). -/
def stage2 (env : OsEnv) (proc : ProcRecord) : Stage2 :=
  let spoof := detect_name_spoofing proc.name proc.path
  let s1 : Stage2 :=
    if spoof.1 then ⟨["🚨 NAME SPOOFING: " ++ spoof.2], 2, 0.4⟩ else ⟨[], 0, 0⟩
  let keywords := has_keylogger_keywords proc.name proc.path
  let s2 : Stage2 :=
    if !keywords.isEmpty then
      ⟨s1.evidence ++ ["🚨 KEYLOGGER KEYWORDS: " ++ String.intercalate ", " keywords],
       s1.threat_score + 2, s1.confidence + 0.5⟩
    else s1
  let s3 : Stage2 :=
    if !proc.is_signed then
      ⟨s2.evidence ++ ["⚠️ Unsigned binary with keyboard hook"],
       s2.threat_score + 1, s2.confidence + 0.2⟩
    else s2
  let s4 : Stage2 :=
    if is_suspicious_location proc.path then
      ⟨s3.evidence ++ ["⚠️ Suspicious location: " ++ proc.path],
       s3.threat_score + 1, s3.confidence + 0.25⟩
    else s3
  let s5 : Stage2 :=
    if !truthy env.publisher && !is_trusted_location proc.path then
      ⟨s4.evidence ++ ["⚠️ Unknown publisher in non-standard location"],
       s4.threat_score + 1, s4.confidence + 0.15⟩
    else s4
  let s6 : Stage2 :=
    if proc.is_hidden then
      ⟨s5.evidence ++ ["⚠️ Hidden process with keyboard hook"],
       s5.threat_score + 1, s5.confidence + 0.2⟩
    else s5
  let adv := advanced_behavioral_analysis env
  if 0 < adv.1 then
    ⟨s6.evidence ++ adv.2, s6.threat_score + adv.2.length, s6.confidence + adv.1⟩
  else s6

/-- The three stage-1 short-circuits of `analyze_process`: safe name,
trusted location, trusted publisher — each suppressed when name spoofing
fires. -/
def whitelist_pass (env : OsEnv) (proc : ProcRecord) : Bool :=
  (safe_process_names.contains (strLower proc.name) &&
     !(detect_name_spoofing proc.name proc.path).1) ||
  (is_trusted_location proc.path &&
     !(detect_name_spoofing proc.name proc.path).1) ||
  (publisher_trusted env.publisher &&
     !(detect_name_spoofing proc.name proc.path).1)

/-- `ProductionKeyloggerDetector.analyze_process`: whitelist short-circuits,
indicator accumulation, and emission iff the threat score reaches 3, with
confidence clamped to 1.0 and flags keyword-matched from the evidence. -/
def analyze_process (env : OsEnv) (proc : ProcRecord) : Option KeyloggerDetection :=
  if safe_process_names.contains (strLower proc.name) &&
      !(detect_name_spoofing proc.name proc.path).1 then none
  else if is_trusted_location proc.path &&
      !(detect_name_spoofing proc.name proc.path).1 then none
  else if publisher_trusted env.publisher &&
      !(detect_name_spoofing proc.name proc.path).1 then none
  else
    let s := stage2 env proc
    if 3 ≤ s.threat_score then
      some { pid := proc.pid, name := proc.name, path := proc.path,
             confidence := min s.confidence 1,
             evidence := s.evidence,
             threat_score := s.threat_score,
             network_activity := s.evidence.any fun e => strContains e "NETWORK",
             file_logging := s.evidence.any fun e => strContains e "FILE LOGGING",
             memory_suspicious := s.evidence.any fun e => strContains e "MEMORY",
             process_injection := s.evidence.any fun e =>
               strContains e "INJECTION" || strContains e "ANCESTRY" }
    else none

end Detector

namespace Detector

/-- C1: the decision core returns a detection exactly when the whitelist
short-circuits do not fire and the accumulated threat score reaches 3; any
returned detection carries the accumulated score, confidence clamped to at
most 1.0, and the four flags keyword-matched from its evidence lines. -/
theorem analyze_process_emission (env : OsEnv) (proc : ProcRecord) :
    ((analyze_process env proc).isSome ↔
        whitelist_pass env proc = false ∧ 3 ≤ (stage2 env proc).threat_score) ∧
    (∀ d, analyze_process env proc = some d →
        d.threat_score = (stage2 env proc).threat_score ∧
        3 ≤ d.threat_score ∧
        d.confidence ≤ 1 ∧
        d.network_activity = (d.evidence.any fun e => strContains e "NETWORK") ∧
        d.file_logging = (d.evidence.any fun e => strContains e "FILE LOGGING") ∧
        d.memory_suspicious = (d.evidence.any fun e => strContains e "MEMORY") ∧
        d.process_injection = (d.evidence.any fun e =>
          strContains e "INJECTION" || strContains e "ANCESTRY")) := by
  have hwdef : whitelist_pass env proc =
      ((safe_process_names.contains (strLower proc.name) &&
          !(detect_name_spoofing proc.name proc.path).1) ||
       (is_trusted_location proc.path &&
          !(detect_name_spoofing proc.name proc.path).1) ||
       (publisher_trusted env.publisher &&
          !(detect_name_spoofing proc.name proc.path).1)) := rfl
  simp only [analyze_process]
  split_ifs with h1 h2 h3 h4
  · refine ⟨iff_of_false (by simp) ?_, ?_⟩
    · rintro ⟨hw, -⟩
      rw [hwdef, h1] at hw
      simp at hw
    · intro d hd
      exact absurd hd (by simp)
  · refine ⟨iff_of_false (by simp) ?_, ?_⟩
    · rintro ⟨hw, -⟩
      rw [hwdef, h2] at hw
      simp at hw
    · intro d hd
      exact absurd hd (by simp)
  · refine ⟨iff_of_false (by simp) ?_, ?_⟩
    · rintro ⟨hw, -⟩
      rw [hwdef, h3] at hw
      simp at hw
    · intro d hd
      exact absurd hd (by simp)
  · refine ⟨iff_of_true rfl ⟨?_, h4⟩, ?_⟩
    · rw [hwdef]
      simp only [Bool.not_eq_true] at h1 h2 h3
      rw [h1, h2, h3]
      rfl
    · intro d hd
      rw [Option.some.injEq] at hd
      subst hd
      exact ⟨rfl, h4, min_le_right _ _, rfl, rfl, rfl, rfl⟩
  · refine ⟨iff_of_false (by simp) ?_, ?_⟩
    · rintro ⟨-, hs⟩
      exact h4 hs
    · intro d hd
      exact absurd hd (by simp)

/-- C1 witness: a keyword-named unsigned binary in a user temp directory is
emitted (whitelist does not fire and the accumulated score reaches 3). -/
theorem analyze_process_emission_witness :
    (analyze_process
      { publisher := none, network_fired := false, network_msg := "",
        filelog_fired := false, filelog_msg := "",
        memory_fired := false, memory_msg := "",
        ancestry_fired := false, ancestry_msg := "",
        injection_fired := false, injection_msg := "" }
      { pid := 7777, name := "pynput_keylog.exe",
        path := "C:\\Users\\U\\AppData\\Local\\Temp\\pynput_keylog.exe",
        is_signed := false, is_hidden := false, has_hook := true }).isSome := by
  exact (analyze_process_emission _ _).1.mpr ⟨by decide, by decide⟩

/-- C2: a process whose name is in the safe-process set and whose path is
under a trusted location is never flagged when name spoofing does not fire,
regardless of the publisher and the behavioral indicators in the
environment. -/
theorem whitelist_short_circuit (env : OsEnv) (proc : ProcRecord)
    (hname : safe_process_names.contains (strLower proc.name) = true)
    (hloc : is_trusted_location proc.path = true)
    (hspoof : (detect_name_spoofing proc.name proc.path).1 = false) :
    analyze_process env proc = none := by
  unfold analyze_process
  rw [hname, hspoof]
  simp

/-- C2 witness: a correctly located svchost.exe yields no detection even
though it is unsigned, hidden, unknown-publisher, and every behavioral
indicator fires. -/
theorem whitelist_short_circuit_witness :
    analyze_process
      { publisher := none, network_fired := true, network_msg := "x",
        filelog_fired := true, filelog_msg := "x",
        memory_fired := true, memory_msg := "x",
        ancestry_fired := true, ancestry_msg := "x",
        injection_fired := true, injection_msg := "x" }
      { pid := 1234, name := "svchost.exe",
        path := "C:\\Windows\\System32\\svchost.exe",
        is_signed := false, is_hidden := true, has_hook := true } = none := by
  exact whitelist_short_circuit _ _ (by decide) (by decide) (by decide)

end Detector

namespace Enumerator

/-- Environment of `WindowsAPIEnumerator.detect_hooks`: the pid list
returned by `enumerate_processes` and the per-pid result of
`get_process_info` (None for an inaccessible process). -/
structure EnumEnv where
  pids : List Nat
  info : Nat → Option ProcessInfo

/-- Process names commonly hosting hooks (`_likely_has_hooks`). -/
def common_hook_processes : List String :=
  ["explorer.exe", "skype.exe", "discord.exe", "slack.exe", "teams.exe",
   "obs64.exe", "obs32.exe"]

/-- `_likely_has_hooks`. -/
def likely_has_hooks (p : ProcessInfo) : Bool :=
  common_hook_processes.contains (strLower p.name)

/-- The loaded-module heuristic of `detect_hooks`. -/
def has_hook_indicators (p : ProcessInfo) : Bool :=
  (p.loaded_dlls.any fun dll => strContains (strLower dll) "user32") ||
  (p.loaded_dlls.any fun dll => strContains (strLower dll) "hook")

/-- Loop body of `WindowsAPIEnumerator.detect_hooks`: walk the pid list,
and give each flagged process the next sequential hook id (`hook_id`
starts at 1 and is incremented per emitted hook). -/
def detect_hooks_from (info : Nat → Option ProcessInfo) :
    List Nat → Nat → List HookInfo
  | [], _ => []
  | pid :: rest, hid =>
    match info pid with
    | none => detect_hooks_from info rest hid
    | some p =>
      if has_hook_indicators p || likely_has_hooks p then
        { hook_id := hid, hook_type := "WH_KEYBOARD_LL", owner_pid := pid,
          owner_process := p.name, module_path := p.path,
          timestamp := p.timestamp } :: detect_hooks_from info rest (hid + 1)
      else detect_hooks_from info rest hid

/-- `WindowsAPIEnumerator.detect_hooks`. -/
def detect_hooks (env : EnumEnv) : List HookInfo :=
  detect_hooks_from env.info env.pids 1

/-- `MockEnumerator.detect_hooks`: a fixed three-element hook population
(timestamps omitted). -/
def mock_detect_hooks : List HookInfo :=
  [{ hook_id := 1, hook_type := "WH_KEYBOARD_LL", owner_pid := 2248,
     owner_process := "explorer.exe", module_path := "C:\\Windows\\explorer.exe",
     timestamp := "" },
   { hook_id := 2, hook_type := "WH_KEYBOARD_LL", owner_pid := 4120,
     owner_process := "badproc.exe", module_path := "C:\\Temp\\badproc.exe",
     timestamp := "" },
   { hook_id := 3, hook_type := "WH_KEYBOARD", owner_pid := 8192,
     owner_process := "unknown.exe",
     module_path := "C:\\Users\\User\\AppData\\Local\\Temp\\unknown.exe",
     timestamp := "" }]

/-- A fixed two-process population for exercising `detect_hooks` across
two probe cycles: both processes load user32.dll, so both are flagged as
hook candidates. -/
def twoProcInfo : Nat → Option ProcessInfo := fun pid =>
  if pid = 100 then
    some { pid := 100, name := "alpha.exe", path := "C:\\Apps\\alpha.exe",
           parent_pid := 1, is_signed := true, user_account := "U",
           is_hidden_window := false, is_service := false,
           loaded_dlls := ["user32.dll"], privileges := ["NORMAL"], timestamp := "" }
  else if pid = 200 then
    some { pid := 200, name := "beta.exe", path := "C:\\Apps\\beta.exe",
           parent_pid := 1, is_signed := true, user_account := "U",
           is_hidden_window := false, is_service := false,
           loaded_dlls := ["user32.dll"], privileges := ["NORMAL"], timestamp := "" }
  else none

/-- C8 (code bug): sequential id assignment is not stable across cycles.
With processes 100 and 200 both hook-flagged in the first cycle and
process 100 gone in the second, the same observable registration of
process 200 (same owner pid, hook type and module path) receives id 2 in
the first cycle but id 1 in the second. -/
theorem detect_hooks_id_unstable :
    ∃ h1 h2,
      h1 ∈ detect_hooks { pids := [100, 200], info := twoProcInfo } ∧
      h2 ∈ detect_hooks { pids := [200], info := twoProcInfo } ∧
      h1.owner_pid = h2.owner_pid ∧
      h1.hook_type = h2.hook_type ∧
      h1.module_path = h2.module_path ∧
      h1.hook_id ≠ h2.hook_id := by
  refine ⟨{ hook_id := 2, hook_type := "WH_KEYBOARD_LL", owner_pid := 200,
            owner_process := "beta.exe", module_path := "C:\\Apps\\beta.exe",
            timestamp := "" },
          { hook_id := 1, hook_type := "WH_KEYBOARD_LL", owner_pid := 200,
            owner_process := "beta.exe", module_path := "C:\\Apps\\beta.exe",
            timestamp := "" },
          ?_, ?_, rfl, rfl, rfl, by decide⟩
  · decide
  · decide

end Enumerator

namespace Monitor

/-- Event detected during monitoring (`MonitorEvent` in `src/monitor.py`;
wall-clock timestamp omitted). -/
structure MonitorEvent where
  event_type : String
  hook_info : Option HookInfo
  process_info : Option ProcessInfo
  risk_assessment : Option Heuristics.RiskAssessment
  details : String
deriving DecidableEq, Repr

/-- Keys of an insertion-ordered dictionary modelled as an association
list (Python `dict` preserving insertion order). -/
def dictKeys {α : Type} (d : List (Nat × α)) : List Nat := d.map Prod.fst

/-- Dictionary lookup (`d.get(k)` / `d[k]`). -/
def dictGet? {α : Type} (d : List (Nat × α)) (k : Nat) : Option α :=
  (d.find? fun kv => kv.1 == k).map Prod.snd

/-- Dictionary update `d[k] = v`: overwrite in place, else append. -/
def dictInsert {α : Type} (d : List (Nat × α)) (k : Nat) (v : α) : List (Nat × α) :=
  if d.any fun kv => kv.1 == k then
    d.map fun kv => if kv.1 == k then (k, v) else kv
  else d ++ [(k, v)]

/-- The dict comprehension `{key(x): x for x in l}` (later wins). -/
def dictOfList {α : Type} (key : α → Nat) (l : List α) : List (Nat × α) :=
  l.foldl (fun d x => dictInsert d (key x) x) []

/-- The hook-added event built by `_handle_new_hook`. -/
def mk_added_event (hook : HookInfo) (proc : ProcessInfo)
    (assessment : Heuristics.RiskAssessment) : MonitorEvent :=
  { event_type := "hook_added", hook_info := some hook, process_info := some proc,
    risk_assessment := some assessment,
    details := "New " ++ hook.hook_type ++ " hook from " ++ proc.name ++
      " (PID " ++ toString hook.owner_pid ++ ")" }

/-- `_handle_new_hook`: fetch the owner's process info; when inaccessible,
warn and emit nothing; otherwise assess the risk (`analyze_hook` delegates
to `analyze_process` with hook count 1), emit a hook_added event and
record the process. -/
def handle_new_hook (sens : Heuristics.Sensitivity)
    (pinfo : Nat → Option ProcessInfo) (hook : HookInfo)
    (kp : List (Nat × ProcessInfo)) :
    Option MonitorEvent × List (Nat × ProcessInfo) :=
  match pinfo hook.owner_pid with
  | none => (none, kp)
  | some proc =>
    (some (mk_added_event hook proc (Heuristics.analyze_process sens proc 1)),
     dictInsert kp hook.owner_pid proc)

/-- `_handle_removed_hook`: look up the stored hook and emit a
hook_removed event (no assessment). -/
def handle_removed_hook (known_hooks : List (Nat × HookInfo))
    (kp : List (Nat × ProcessInfo)) (hook_id : Nat) : Option MonitorEvent :=
  match dictGet? known_hooks hook_id with
  | none => none
  | some removed =>
    some { event_type := "hook_removed", hook_info := some removed,
           process_info := dictGet? kp removed.owner_pid,
           risk_assessment := none,
           details := "Hook " ++ toString hook_id ++ " removed from " ++
             removed.owner_process ++ " (PID " ++ toString removed.owner_pid ++ ")" }

/-- The change messages collected by `_check_process_changes`; the scan
reports a change exactly when this list is non-empty. -/
def proc_changed_details (op np : ProcessInfo) : List String :=
  (if op.path ≠ np.path then
      ["path changed from " ++ op.path ++ " to " ++ np.path] else []) ++
  (if op.is_signed ≠ np.is_signed then ["signature status changed"] else []) ++
  (if op.loaded_dlls ≠ np.loaded_dlls then
      (let new_dlls := np.loaded_dlls.filter fun d => !op.loaded_dlls.contains d
       if !new_dlls.isEmpty then
         ["loaded new DLLs: " ++ String.intercalate ", " (new_dlls.take 3)]
       else [])
    else [])

/-- `_check_process_changes`: re-fetch the owner's process info and emit a
process_changed event with a fresh assessment when it differs from the
recorded one. -/
def check_process_changes (sens : Heuristics.Sensitivity)
    (pinfo : Nat → Option ProcessInfo) (hook : HookInfo)
    (kp : List (Nat × ProcessInfo)) :
    Option MonitorEvent × List (Nat × ProcessInfo) :=
  match pinfo hook.owner_pid with
  | none => (none, kp)
  | some np =>
    match dictGet? kp hook.owner_pid with
    | none => (none, kp)
    | some op =>
      let changes := proc_changed_details op np
      if !changes.isEmpty then
        (some { event_type := "process_changed", hook_info := some hook,
                process_info := some np,
                risk_assessment := some (Heuristics.analyze_process sens np 1),
                details := "Process " ++ np.name ++ " changed: " ++
                  String.intercalate "; " changes },
         dictInsert kp hook.owner_pid np)
      else (none, kp)

/-- The new-hook loop of `_perform_scan` over the hooks whose ids are new,
threading the known-process map. -/
def added_phase (sens : Heuristics.Sensitivity)
    (pinfo : Nat → Option ProcessInfo) :
    List HookInfo → List (Nat × ProcessInfo) →
      List MonitorEvent × List (Nat × ProcessInfo)
  | [], kp => ([], kp)
  | h :: rest, kp =>
    match handle_new_hook sens pinfo h kp with
    | (none, kp2) => added_phase sens pinfo rest kp2
    | (some e, kp2) =>
      let r := added_phase sens pinfo rest kp2
      (e :: r.1, r.2)

/-- The change-detection loop of `_perform_scan` over the hooks already
known, threading the known-process map. -/
def changed_phase (sens : Heuristics.Sensitivity)
    (pinfo : Nat → Option ProcessInfo) :
    List HookInfo → List (Nat × ProcessInfo) →
      List MonitorEvent × List (Nat × ProcessInfo)
  | [], kp => ([], kp)
  | h :: rest, kp =>
    match check_process_changes sens pinfo h kp with
    | (none, kp2) => changed_phase sens pinfo rest kp2
    | (some e, kp2) =>
      let r := changed_phase sens pinfo rest kp2
      (e :: r.1, r.2)

/-- Helper of `dedupById`, skipping hooks whose id was already seen. -/
def dedupById_go (seen : List Nat) : List HookInfo → List HookInfo
  | [] => []
  | h :: rest =>
    if seen.contains h.hook_id then dedupById_go seen rest
    else h :: dedupById_go (h.hook_id :: seen) rest

/-- First-occurrence deduplication by hook id: the Python loop iterates
over the set `current_ids - known_ids` and picks, per id, the first hook
carrying it (`next(h for h in current_hooks if h.hook_id == hook_id)`).
Iteration order of the Python set is unspecified; this model fixes the
order of first appearance, and every property proved of it is insensitive
to the order within the phase. -/
def dedupById (l : List HookInfo) : List HookInfo := dedupById_go [] l

/-- Monitor state before a scan: the `known_hooks` and `known_processes`
dictionaries. -/
structure ScanState where
  known_hooks : List (Nat × HookInfo)
  known_processes : List (Nat × ProcessInfo)

/-- Result of one `_perform_scan` cycle: the events appended (in emission
order) and the replaced state. -/
structure ScanOutput where
  events : List MonitorEvent
  known_hooks : List (Nat × HookInfo)
  known_processes : List (Nat × ProcessInfo)

/-- `HookMonitor._perform_scan`: diff the current hooks against the known
ones — new hooks first, then removed hooks, then process changes for
surviving hooks — and replace `known_hooks` wholesale. -/
def perform_scan (sens : Heuristics.Sensitivity)
    (pinfo : Nat → Option ProcessInfo) (current_hooks : List HookInfo)
    (st : ScanState) : ScanOutput :=
  let current_hook_ids := current_hooks.map HookInfo.hook_id
  let known_hook_ids := dictKeys st.known_hooks
  let new_hooks :=
    dedupById (current_hooks.filter fun h => !known_hook_ids.contains h.hook_id)
  let added := added_phase sens pinfo new_hooks st.known_processes
  let removed_ids := known_hook_ids.filter fun i => !current_hook_ids.contains i
  let removed_events := removed_ids.filterMap (handle_removed_hook st.known_hooks added.2)
  let common_hooks := current_hooks.filter fun h => known_hook_ids.contains h.hook_id
  let changed := changed_phase sens pinfo common_hooks added.2
  { events := added.1 ++ removed_events ++ changed.1,
    known_hooks := dictOfList HookInfo.hook_id current_hooks,
    known_processes := changed.2 }

/-- The hook ids carried by the events of a given type. -/
def eventHookIds (t : String) (evs : List MonitorEvent) : List Nat :=
  (evs.filter fun e => e.event_type == t).filterMap
    fun e => e.hook_info.map HookInfo.hook_id

/-- The delivery-order property asserted of a cycle's event-type trace by
the spec: once a hook_added event has been delivered, no hook_removed
event follows within the cycle. -/
def removed_precede_added : List String → Bool
  | [] => true
  | t :: rest =>
    (if t = "hook_added" then rest.all fun u => u ≠ "hook_removed" else true) &&
      removed_precede_added rest

end Monitor

namespace Monitor

/-- Key-set effect of a dictionary update. -/
theorem mem_dictKeys_dictInsert {α : Type} (d : List (Nat × α)) (k : Nat) (v : α)
    (j : Nat) : j ∈ dictKeys (dictInsert d k v) ↔ j ∈ dictKeys d ∨ j = k := by
  unfold dictInsert dictKeys
  split_ifs with h
  · simp only [List.any_eq_true, beq_iff_eq] at h
    obtain ⟨kv, hkv, hk⟩ := h
    simp only [List.map_map, List.mem_map, Function.comp_apply]
    constructor
    · rintro ⟨kv2, hkv2, hj⟩
      by_cases hb : (kv2.1 == k) = true
      · rw [if_pos hb] at hj
        exact Or.inr hj.symm
      · rw [if_neg hb] at hj
        exact Or.inl ⟨kv2, hkv2, hj⟩
    · rintro (⟨kv2, hkv2, hj⟩ | rfl)
      · refine ⟨kv2, hkv2, ?_⟩
        by_cases hb : (kv2.1 == k) = true
        · rw [if_pos hb]
          simp only [beq_iff_eq] at hb
          rw [← hb, hj]
        · rw [if_neg hb]
          exact hj
      · refine ⟨kv, hkv, ?_⟩
        rw [if_pos (by simp [hk])]
  · simp [List.mem_append]

end Monitor

namespace Monitor

/-- Key set of the dict built from a list: exactly the mapped keys. -/
theorem mem_dictKeys_dictOfList {α : Type} (key : α → Nat) (l : List α) (j : Nat) :
    j ∈ dictKeys (dictOfList key l) ↔ j ∈ l.map key := by
  have general : ∀ (l2 : List α) (d : List (Nat × α)),
      j ∈ dictKeys (l2.foldl (fun d x => dictInsert d (key x) x) d) ↔
        j ∈ dictKeys d ∨ j ∈ l2.map key := by
    intro l2
    induction l2 with
    | nil => intro d; simp
    | cons x rest ih =>
      intro d
      rw [List.foldl_cons, ih, mem_dictKeys_dictInsert]
      simp [or_assoc]
  rw [dictOfList, general]
  simp [dictKeys]

/-- A key present in the dictionary has a value, which is one of the
stored pairs under that key. -/
theorem dictGet?_of_mem_keys {α : Type} (d : List (Nat × α)) (j : Nat)
    (hj : j ∈ dictKeys d) : ∃ v, dictGet? d j = some v ∧ (j, v) ∈ d := by
  have hex : ∃ kv ∈ d, (kv.1 == j) = true := by
    simp only [dictKeys, List.mem_map] at hj
    obtain ⟨kv, hkv, hk⟩ := hj
    exact ⟨kv, hkv, by simp [hk]⟩
  have hsome : (d.find? fun kv => kv.1 == j).isSome := List.find?_isSome.mpr hex
  obtain ⟨kv, hkv⟩ := Option.isSome_iff_exists.mp hsome
  have hmem := List.mem_of_find?_eq_some hkv
  have hpred := List.find?_some hkv
  simp only [beq_iff_eq] at hpred
  refine ⟨kv.2, ?_, ?_⟩
  · rw [dictGet?, hkv, Option.map_some']
  · rw [← hpred]
    exact hmem

/-- Under a no-duplicate-ids hypothesis, first-occurrence deduplication
is the identity. -/
theorem dedupById_go_of_nodup : ∀ (l : List HookInfo) (seen : List Nat),
    (∀ h ∈ l, h.hook_id ∉ seen) → (l.map HookInfo.hook_id).Nodup →
    dedupById_go seen l = l := by
  intro l
  induction l with
  | nil => intro seen _ _; rfl
  | cons h rest ih =>
    intro seen hseen hnd
    rw [List.map_cons, List.nodup_cons] at hnd
    rw [dedupById_go]
    have hcont : seen.contains h.hook_id = false := by
      cases hc : seen.contains h.hook_id
      · rfl
      · exact absurd (List.elem_iff.mp hc)
          (hseen h (List.mem_cons_self _ _))
    rw [hcont]
    simp only [Bool.false_eq_true, if_false]
    rw [ih (h.hook_id :: seen) ?_ hnd.2]
    intro h2 hh2 hmem
    rcases List.mem_cons.mp hmem with heq | hmem2
    · exact hnd.1 (heq ▸ List.mem_map_of_mem HookInfo.hook_id hh2)
    · exact hseen h2 (List.mem_cons_of_mem _ hh2) hmem2

/-- Under a no-duplicate-ids hypothesis, deduplication is the identity. -/
theorem dedupById_of_nodup (l : List HookInfo)
    (hnd : (l.map HookInfo.hook_id).Nodup) : dedupById l = l :=
  dedupById_go_of_nodup l [] (fun _ _ h => absurd h (List.not_mem_nil _)) hnd

/-- Membership in the per-type hook-id trace of an event list. -/
theorem mem_eventHookIds (t : String) (evs : List MonitorEvent) (i : Nat) :
    i ∈ eventHookIds t evs ↔
      ∃ e ∈ evs, e.event_type = t ∧ ∃ h, e.hook_info = some h ∧ h.hook_id = i := by
  unfold eventHookIds
  simp only [List.mem_filterMap, List.mem_filter, Option.map_eq_some', beq_iff_eq]
  constructor
  · rintro ⟨e, ⟨hmem, ht⟩, h, hinfo, hid⟩
    exact ⟨e, hmem, ht, h, hinfo, hid⟩
  · rintro ⟨e, hmem, ht, h, hinfo, hid⟩
    exact ⟨e, ⟨hmem, ht⟩, h, hinfo, hid⟩

end Monitor

namespace Monitor

/-- Events of the new-hook loop: exactly one hook_added event per listed
hook whose owner's process info is retrievable, regardless of the threaded
process map. -/
theorem added_phase_mem (sens : Heuristics.Sensitivity)
    (pinfo : Nat → Option ProcessInfo) :
    ∀ (l : List HookInfo) (kp : List (Nat × ProcessInfo)) (e : MonitorEvent),
      e ∈ (added_phase sens pinfo l kp).1 ↔
        ∃ h ∈ l, ∃ p, pinfo h.owner_pid = some p ∧
          e = mk_added_event h p (Heuristics.analyze_process sens p 1) := by
  intro l
  induction l with
  | nil =>
    intro kp e
    simp [added_phase]
  | cons h rest ih =>
    intro kp e
    rw [added_phase]
    cases hp : pinfo h.owner_pid with
    | none =>
      simp only [handle_new_hook, hp]
      rw [ih]
      constructor
      · rintro ⟨h2, hmem, p, hps, rfl⟩
        exact ⟨h2, List.mem_cons_of_mem _ hmem, p, hps, rfl⟩
      · rintro ⟨h2, hmem, p, hps, he⟩
        rcases List.mem_cons.mp hmem with rfl | hmem2
        · rw [hp] at hps
          cases hps
        · exact ⟨h2, hmem2, p, hps, he⟩
    | some p =>
      simp only [handle_new_hook, hp, List.mem_cons]
      rw [ih]
      constructor
      · rintro (rfl | ⟨h2, hmem, p2, hps, he⟩)
        · exact ⟨h, Or.inl rfl, p, hp, rfl⟩
        · exact ⟨h2, Or.inr hmem, p2, hps, he⟩
      · rintro ⟨h2, hmem, p2, hps, he⟩
        rcases hmem with rfl | hmem2
        · rw [hp] at hps
          rw [Option.some.injEq] at hps
          subst hps
          exact Or.inl he
        · exact Or.inr ⟨h2, hmem2, p2, hps, he⟩

/-- A successful removed-hook handler call yields a hook_removed event
carrying the stored hook. -/
theorem handle_removed_hook_eq_some {known : List (Nat × HookInfo)}
    {kp : List (Nat × ProcessInfo)} {j : Nat} {e : MonitorEvent}
    (h : handle_removed_hook known kp j = some e) :
    e.event_type = "hook_removed" ∧
      ∃ v, dictGet? known j = some v ∧ e.hook_info = some v := by
  unfold handle_removed_hook at h
  cases hv : dictGet? known j <;> rw [hv] at h
  · cases h
  · rw [Option.some.injEq] at h
    subst h
    exact ⟨rfl, _, rfl, rfl⟩

/-- The removed-hook handler succeeds on every stored key. -/
theorem handle_removed_hook_of_get {known : List (Nat × HookInfo)}
    {kp : List (Nat × ProcessInfo)} {j : Nat} {v : HookInfo}
    (hv : dictGet? known j = some v) :
    handle_removed_hook known kp j =
      some { event_type := "hook_removed", hook_info := some v,
             process_info := dictGet? kp v.owner_pid,
             risk_assessment := none,
             details := "Hook " ++ toString j ++ " removed from " ++
               v.owner_process ++ " (PID " ++ toString v.owner_pid ++ ")" } := by
  unfold handle_removed_hook
  rw [hv]

/-- A successful process-change check yields a process_changed event. -/
theorem check_process_changes_type {sens : Heuristics.Sensitivity}
    {pinfo : Nat → Option ProcessInfo} {h : HookInfo}
    {kp kp2 : List (Nat × ProcessInfo)} {e : MonitorEvent}
    (hc : check_process_changes sens pinfo h kp = (some e, kp2)) :
    e.event_type = "process_changed" := by
  unfold check_process_changes at hc
  split at hc
  · exact absurd hc (by simp)
  · split at hc
    · exact absurd hc (by simp)
    · dsimp only at hc
      split_ifs at hc
      · rw [Prod.mk.injEq, Option.some.injEq] at hc
        rw [← hc.1]
      · exact absurd hc (by simp)

/-- Every event of the change-detection loop is a process_changed event. -/
theorem changed_phase_types (sens : Heuristics.Sensitivity)
    (pinfo : Nat → Option ProcessInfo) :
    ∀ (l : List HookInfo) (kp : List (Nat × ProcessInfo)),
      ∀ e ∈ (changed_phase sens pinfo l kp).1, e.event_type = "process_changed" := by
  intro l
  induction l with
  | nil =>
    intro kp e he
    simp [changed_phase] at he
  | cons h rest ih =>
    intro kp e he
    rw [changed_phase] at he
    rcases hc : check_process_changes sens pinfo h kp with ⟨oe, kp2⟩
    rw [hc] at he
    cases oe with
    | none => exact ih kp2 e he
    | some e2 =>
      rcases List.mem_cons.mp he with rfl | he2
      · exact check_process_changes_type hc
      · exact ih kp2 e he2

end Monitor

namespace Monitor

/-- A successful dictionary lookup returns one of the stored pairs. -/
theorem dictGet?_eq_some_mem {α : Type} {d : List (Nat × α)} {j : Nat} {v : α}
    (h : dictGet? d j = some v) : (j, v) ∈ d := by
  unfold dictGet? at h
  cases hf : d.find? fun kv => kv.1 == j <;> rw [hf] at h
  · cases h
  · rw [Option.map_some', Option.some.injEq] at h
    have hmem := List.mem_of_find?_eq_some hf
    have hpred := List.find?_some hf
    simp only [beq_iff_eq] at hpred
    rw [← h, ← hpred]
    exact hmem

/-- C6 amended: in one scan cycle, a hook_added event is emitted exactly
for the current-minus-known hook ids whose owner process info is
retrievable, a hook_removed event exactly for the known-minus-current ids,
and `known_hooks` is replaced wholesale so its key set equals the current
id set.  (The accessibility condition on additions is the one departure
from the claim: `_handle_new_hook` emits nothing when `get_process_info`
returns None.) -/
theorem perform_scan_diff (sens : Heuristics.Sensitivity)
    (pinfo : Nat → Option ProcessInfo) (current : List HookInfo) (st : ScanState)
    (hnodup : (current.map HookInfo.hook_id).Nodup)
    (hwf : ∀ kv ∈ st.known_hooks, kv.2.hook_id = kv.1) :
    (∀ i, i ∈ eventHookIds "hook_added" (perform_scan sens pinfo current st).events ↔
        ((∃ h ∈ current, h.hook_id = i ∧ (pinfo h.owner_pid).isSome = true) ∧
          i ∉ dictKeys st.known_hooks)) ∧
    (∀ i, i ∈ eventHookIds "hook_removed" (perform_scan sens pinfo current st).events ↔
        (i ∈ dictKeys st.known_hooks ∧ i ∉ current.map HookInfo.hook_id)) ∧
    (∀ i, i ∈ dictKeys (perform_scan sens pinfo current st).known_hooks ↔
        i ∈ current.map HookInfo.hook_id) := by
  have hdedup : dedupById (current.filter fun h =>
      !(dictKeys st.known_hooks).contains h.hook_id) =
      current.filter fun h => !(dictKeys st.known_hooks).contains h.hook_id :=
    dedupById_of_nodup _
      (List.Nodup.sublist (List.Sublist.map _ (List.filter_sublist _)) hnodup)
  have hev : (perform_scan sens pinfo current st).events =
      (added_phase sens pinfo (current.filter fun h =>
        !(dictKeys st.known_hooks).contains h.hook_id) st.known_processes).1 ++
      (((dictKeys st.known_hooks).filter fun i =>
          !(current.map HookInfo.hook_id).contains i).filterMap
        (handle_removed_hook st.known_hooks
          (added_phase sens pinfo (current.filter fun h =>
            !(dictKeys st.known_hooks).contains h.hook_id) st.known_processes).2)) ++
      (changed_phase sens pinfo
        (current.filter fun h => (dictKeys st.known_hooks).contains h.hook_id)
        (added_phase sens pinfo (current.filter fun h =>
          !(dictKeys st.known_hooks).contains h.hook_id) st.known_processes).2).1 := by
    simp only [perform_scan]
    rw [hdedup]
  refine ⟨?_, ?_, ?_⟩
  · intro i
    rw [hev, mem_eventHookIds]
    constructor
    · rintro ⟨e, hmem, htype, h, hinfo, hid⟩
      rcases List.mem_append.mp hmem with hm1 | hm2
      · rcases List.mem_append.mp hm1 with hma | hmr
        · obtain ⟨h2, hh2, p, hps, he⟩ := (added_phase_mem sens pinfo _ _ _).mp hma
          subst he
          simp only [mk_added_event, Option.some.injEq] at hinfo
          subst hinfo
          obtain ⟨hcur, hbool⟩ := List.mem_filter.mp hh2
          refine ⟨⟨h2, hcur, hid, by rw [hps]; rfl⟩, ?_⟩
          intro hik
          simp only [Bool.not_eq_true'] at hbool
          have hc : (dictKeys st.known_hooks).contains h2.hook_id = true :=
            List.elem_iff.mpr (hid ▸ hik)
          rw [hbool] at hc
          cases hc
        · obtain ⟨j, hjf, hje⟩ := List.mem_filterMap.mp hmr
          have ht2 := (handle_removed_hook_eq_some hje).1
          rw [ht2] at htype
          exact absurd htype (by decide)
      · have ht2 := changed_phase_types sens pinfo _ _ e hm2
        rw [ht2] at htype
        exact absurd htype (by decide)
    · rintro ⟨⟨h2, hcur, hid, hsome⟩, hnk⟩
      obtain ⟨p, hp⟩ := Option.isSome_iff_exists.mp hsome
      have hfmem : h2 ∈ current.filter fun h =>
          !(dictKeys st.known_hooks).contains h.hook_id := by
        refine List.mem_filter.mpr ⟨hcur, ?_⟩
        cases hcont : (dictKeys st.known_hooks).contains h2.hook_id
        · rfl
        · exact absurd (hid ▸ List.elem_iff.mp hcont) hnk
      exact ⟨mk_added_event h2 p (Heuristics.analyze_process sens p 1),
        List.mem_append_left _ (List.mem_append_left _
          ((added_phase_mem sens pinfo _ _ _).mpr ⟨h2, hfmem, p, hp, rfl⟩)),
        rfl, h2, rfl, hid⟩
  · intro i
    rw [hev, mem_eventHookIds]
    constructor
    · rintro ⟨e, hmem, htype, h, hinfo, hid⟩
      rcases List.mem_append.mp hmem with hm1 | hm2
      · rcases List.mem_append.mp hm1 with hma | hmr
        · obtain ⟨h2, hh2, p, hps, he⟩ := (added_phase_mem sens pinfo _ _ _).mp hma
          subst he
          simp only [mk_added_event] at htype
          exact absurd htype (by decide)
        · obtain ⟨j, hjf, hje⟩ := List.mem_filterMap.mp hmr
          obtain ⟨htype2, v, hget, hinfo2⟩ := handle_removed_hook_eq_some hje
          rw [hinfo2, Option.some.injEq] at hinfo
          subst hinfo
          have hjv := dictGet?_eq_some_mem hget
          have hvid := hwf _ hjv
          obtain ⟨hjk, hjb⟩ := List.mem_filter.mp hjf
          have hij : i = j := by rw [← hid, hvid]
          subst hij
          refine ⟨hjk, ?_⟩
          intro hic
          simp only [Bool.not_eq_true'] at hjb
          have hc : (current.map HookInfo.hook_id).contains i = true :=
            List.elem_iff.mpr hic
          rw [hjb] at hc
          cases hc
      · have ht2 := changed_phase_types sens pinfo _ _ e hm2
        rw [ht2] at htype
        exact absurd htype (by decide)
    · rintro ⟨hik, hnc⟩
      obtain ⟨v, hget, hjv⟩ := dictGet?_of_mem_keys _ _ hik
      have hvid := hwf _ hjv
      refine ⟨_, List.mem_append_left _ (List.mem_append_right _
        (List.mem_filterMap.mpr ⟨i, ?_, handle_removed_hook_of_get hget⟩)),
        rfl, v, rfl, hvid⟩
      refine List.mem_filter.mpr ⟨hik, ?_⟩
      cases hcont : (current.map HookInfo.hook_id).contains i
      · rfl
      · exact absurd (List.elem_iff.mp hcont) hnc
  · intro i
    have hkh : (perform_scan sens pinfo current st).known_hooks =
        dictOfList HookInfo.hook_id current := rfl
    rw [hkh, mem_dictKeys_dictOfList]

end Monitor

namespace Monitor

/-- Minimal process record used by the concrete monitor examples. -/
def exProc (pid : Nat) (name : String) : ProcessInfo :=
  { pid := pid, name := name, path := "C:\\Apps\\" ++ name, parent_pid := 1,
    is_signed := true, user_account := "U", is_hidden_window := false,
    is_service := false, loaded_dlls := ["user32.dll"], privileges := ["NORMAL"],
    timestamp := "" }

/-- Hook fixture A (id 1, owner 10). -/
def hookA : HookInfo :=
  { hook_id := 1, hook_type := "WH_KEYBOARD_LL", owner_pid := 10,
    owner_process := "a.exe", module_path := "C:\\Apps\\a.exe", timestamp := "" }

/-- Hook fixture B (id 2, owner 20). -/
def hookB : HookInfo :=
  { hook_id := 2, hook_type := "WH_KEYBOARD_LL", owner_pid := 20,
    owner_process := "b.exe", module_path := "C:\\Apps\\b.exe", timestamp := "" }

/-- Hook fixture C (id 3, owner 30). -/
def hookC : HookInfo :=
  { hook_id := 3, hook_type := "WH_KEYBOARD_LL", owner_pid := 30,
    owner_process := "c.exe", module_path := "C:\\Apps\\c.exe", timestamp := "" }

/-- Probe environment in which the three fixture owners are accessible. -/
def exPinfo : Nat → Option ProcessInfo := fun pid =>
  if pid = 10 then some (exProc 10 "a.exe")
  else if pid = 20 then some (exProc 20 "b.exe")
  else if pid = 30 then some (exProc 30 "c.exe")
  else none

/-- C6 counterexample: when the owner of a new hook is inaccessible
(`get_process_info` returns None), `_handle_new_hook` emits no event, so
the hook_added id set is strictly smaller than current-minus-known. -/
theorem perform_scan_diff_counterexample :
    ¬ (∀ i, i ∈ eventHookIds "hook_added"
          (perform_scan Heuristics.Sensitivity.medium (fun _ => none) [hookC]
            { known_hooks := [], known_processes := [] }).events ↔
        (i ∈ [hookC].map HookInfo.hook_id ∧
          i ∉ dictKeys ([] : List (Nat × HookInfo)))) := by
  intro hall
  have h3 := (hall 3).mpr ⟨by decide, by decide⟩
  revert h3
  decide

/-- C6 witness: the spec's diff scenario — known hooks {A, B}, current
hooks {B, C}, all owners accessible — yields exactly added id 3 (hook C),
removed id 1 (hook A), and a replaced known-hook key set {2, 3}. -/
theorem perform_scan_diff_witness :
    3 ∈ eventHookIds "hook_added"
        (perform_scan Heuristics.Sensitivity.medium exPinfo [hookB, hookC]
          { known_hooks := [(1, hookA), (2, hookB)],
            known_processes := [] }).events ∧
    1 ∈ eventHookIds "hook_removed"
        (perform_scan Heuristics.Sensitivity.medium exPinfo [hookB, hookC]
          { known_hooks := [(1, hookA), (2, hookB)],
            known_processes := [] }).events ∧
    (∀ i, i ∈ dictKeys (perform_scan Heuristics.Sensitivity.medium exPinfo
          [hookB, hookC]
          { known_hooks := [(1, hookA), (2, hookB)],
            known_processes := [] }).known_hooks ↔ (i = 2 ∨ i = 3)) := by
  have h := perform_scan_diff Heuristics.Sensitivity.medium exPinfo [hookB, hookC]
    { known_hooks := [(1, hookA), (2, hookB)], known_processes := [] }
    (by decide) (by decide)
  refine ⟨(h.1 3).mpr ⟨⟨hookC, by decide, rfl, by decide⟩, by decide⟩,
    (h.2.1 1).mpr ⟨by decide, by decide⟩, ?_⟩
  intro i
  rw [h.2.2 i]
  simp [hookB, hookC]

/-- C7 counterexample: with known hook A and current hook C (accessible
owner), the cycle's event trace is hook_added then hook_removed — the
removal is not delivered before the addition. -/
theorem scan_order_counterexample :
    removed_precede_added
      ((perform_scan Heuristics.Sensitivity.medium exPinfo [hookC]
        { known_hooks := [(1, hookA)], known_processes := [] }).events.map
          MonitorEvent.event_type) = false := by
  decide

/-- C7 amended: within one scan cycle events are delivered in three
phases — every hook_added event first, then every hook_removed event,
then every process_changed event (the source handles new hooks before
removed ones, the reverse of the claimed order). -/
theorem perform_scan_phase_structure (sens : Heuristics.Sensitivity)
    (pinfo : Nat → Option ProcessInfo) (current : List HookInfo) (st : ScanState) :
    ∃ a r c, (perform_scan sens pinfo current st).events = a ++ r ++ c ∧
      (∀ e ∈ a, e.event_type = "hook_added") ∧
      (∀ e ∈ r, e.event_type = "hook_removed") ∧
      (∀ e ∈ c, e.event_type = "process_changed") := by
  refine ⟨_, _, _, rfl, ?_, ?_, ?_⟩
  · intro e he
    obtain ⟨h, _, p, _, rfl⟩ := (added_phase_mem sens pinfo _ _ _).mp he
    rfl
  · intro e he
    obtain ⟨j, _, hje⟩ := List.mem_filterMap.mp he
    exact (handle_removed_hook_eq_some hje).1
  · exact changed_phase_types sens pinfo _ _

/-- C7 amended witness: the phase decomposition at the counterexample
input. -/
theorem perform_scan_phase_structure_witness :
    ∃ a r c,
      (perform_scan Heuristics.Sensitivity.medium exPinfo [hookC]
        { known_hooks := [(1, hookA)], known_processes := [] }).events =
        a ++ r ++ c ∧
      (∀ e ∈ a, e.event_type = "hook_added") ∧
      (∀ e ∈ r, e.event_type = "hook_removed") ∧
      (∀ e ∈ c, e.event_type = "process_changed") :=
  perform_scan_phase_structure _ _ _ _

end Monitor

namespace Monitor

/-- A subscriber callback registered with `add_event_callback`: consumes
the event and transforms its private state, or raises (`Except.error`
models a raised Python exception). -/
def Callback (σ : Type) : Type := MonitorEvent → σ → Except String σ

/-- The callback loop shared by `_handle_new_hook` and
`_handle_removed_hook`: every registered callback is invoked in
registration order inside try/except; a raised exception is logged
(`print_error(f"Callback error: ...")`, modelled by appending to the
warning log) and the loop continues with the next callback. -/
def trigger_callbacks {σ : Type} :
    List (Callback σ) → MonitorEvent → σ → List String → σ × List String
  | [], _, s, w => (s, w)
  | cb :: rest, e, s, w =>
    match cb e s with
    | Except.ok s2 => trigger_callbacks rest e s2 w
    | Except.error m => trigger_callbacks rest e s (w ++ ["Callback error: " ++ m])

/-- The state a callback chain produces does not depend on the warnings
accumulated so far. -/
theorem trigger_callbacks_fst_warnings {σ : Type} :
    ∀ (l : List (Callback σ)) (e : MonitorEvent) (s : σ) (w w' : List String),
      (trigger_callbacks l e s w).1 = (trigger_callbacks l e s w').1 := by
  intro l
  induction l with
  | nil => intro e s w w'; rfl
  | cons cb rest ih =>
    intro e s w w'
    rw [trigger_callbacks, trigger_callbacks]
    cases cb e s with
    | ok s2 => exact ih e s2 w w'
    | error m => exact ih e s _ _

/-- An event delivered to the concrete fixture hook C and its owner. -/
def exEvent : MonitorEvent :=
  mk_added_event hookC (exProc 30 "c.exe")
    (Heuristics.analyze_process Heuristics.Sensitivity.medium (exProc 30 "c.exe") 1)

/-- C9: callbacks are invoked synchronously in registration order
(delivering to a concatenation equals delivering sequentially), a raising
subscriber leaves the state seen by later subscribers untouched, and in
the spec's scenario a throwing s1 does not prevent a recording s2 — the
event is recorded and exactly one warning is logged. -/
theorem subscriber_isolation :
    (∀ (σ : Type) (l1 l2 : List (Callback σ)) (e : MonitorEvent) (s : σ)
        (w : List String),
      trigger_callbacks (l1 ++ l2) e s w =
        trigger_callbacks l2 e (trigger_callbacks l1 e s w).1
          (trigger_callbacks l1 e s w).2) ∧
    (∀ (σ : Type) (bad : Callback σ) (rest : List (Callback σ))
        (e : MonitorEvent) (s : σ) (w : List String) (m : String),
      bad e s = Except.error m →
      (trigger_callbacks (bad :: rest) e s w).1 =
        (trigger_callbacks rest e s w).1) ∧
    trigger_callbacks
      ([fun _ _ => Except.error "boom", fun e s => Except.ok (s ++ [e])] :
        List (Callback (List MonitorEvent))) exEvent [] [] =
      ([exEvent], ["Callback error: boom"]) := by
  refine ⟨?_, ?_, rfl⟩
  · intro σ l1
    induction l1 with
    | nil => intro l2 e s w; rfl
    | cons cb rest ih =>
      intro l2 e s w
      rw [List.cons_append, trigger_callbacks, trigger_callbacks]
      cases cb e s with
      | ok s2 => exact ih l2 e s2 w
      | error m => exact ih l2 e s _
  · intro σ bad rest e s w m hbad
    rw [trigger_callbacks, hbad]
    exact trigger_callbacks_fst_warnings rest e s _ _

/-- C9 witness: the isolation conjunct applied to the concrete throwing
subscriber, discharging its hypothesis by computation. -/
theorem subscriber_isolation_witness :
    (trigger_callbacks
      ([fun _ _ => Except.error "boom", fun e s => Except.ok (s ++ [e])] :
        List (Callback (List MonitorEvent))) exEvent [] []).1 =
    (trigger_callbacks
      ([fun e s => Except.ok (s ++ [e])] : List (Callback (List MonitorEvent)))
      exEvent [] []).1 :=
  subscriber_isolation.2.1 (List MonitorEvent) (fun _ _ => Except.error "boom")
    [fun e s => Except.ok (s ++ [e])] exEvent [] [] "boom" rfl

end Monitor
